import Mathlib

/-!
Verification of the DamonsTitleCard layout/composition engine.

Shallow embedding of `DamonsTitleCard.py`.  The card builds an ordered list
of ImageMagick sub-commands; we model each emitted sub-command as a
constructor of `Cmd` carrying its arguments (strings stay strings, float
scalars become rationals, integer scalars become integers).  The instance
fields listed in `__slots__` become the fields of `State`.  The mutation of
`self.hide_episode_text` inside `format_text_commands` is modelled by
returning the updated state alongside the command list.
-/

namespace DamonsTitleCard

/-- Class-level constant `TITLE_COLOR` from the source. -/
def TITLE_COLOR : String := "#EBEBEB"

/-- Class-level constant `TITLE_FONT`.  In the source this is the resolved
path of the file `Montserrat-Bold.ttf` under the reference directory; path
resolution is environment I/O, so we fix the resolved path as an abstract
constant string.  Every use in the source only compares against or embeds
this constant, so all results are parametric in its exact value. -/
def TITLE_FONT : String := "REF_DIRECTORY/olivier/Montserrat-Bold.ttf"

/-- Class-level constant `EPISODE_TEXT_FORMAT` from the source. -/
def EPISODE_TEXT_FORMAT : String :=
  "SEASON {to_cardinal(season_number)} • EPISODE {to_cardinal(episode_number)}"

/-- Resolved path of `EPISODE_PREFIX_FONT` (HelveticaNeue.ttc), modelled as
an abstract constant string like `TITLE_FONT`. -/
def EPISODE_PREFIX_FONT : String := "REF_DIRECTORY/star_wars/HelveticaNeue.ttc"

/-- Resolved path of `EPISODE_NUMBER_FONT` (HelveticaNeue-Bold.ttf). -/
def EPISODE_NUMBER_FONT : String := "REF_DIRECTORY/star_wars/HelveticaNeue-Bold.ttf"

/-- Class-level constant `STROKE_COLOR` from the source. -/
def STROKE_COLOR : String := "black"

/-- Class-level constant `SERIES_COUNT_TEXT_COLOR` from the source. -/
def SERIES_COUNT_TEXT_COLOR : String := "#CFCFCF"

/-- Resolved path of the private `__GRADIENT_IMAGE` (GRADIENT.png). -/
def GRADIENT_IMAGE : String := "REF_DIRECTORY/GRADIENT.png"

/-- One ImageMagick sub-command as emitted by the card.  Each constructor
corresponds to one f-string element of the lists built in the source:
`-gravity d`, `-fill c`, `-pointsize n`, `-kerning n`, `-stroke c`,
`-strokewidth n`, `-font p`, `label:"t"`, `-interline-spacing n`,
`-interword-spacing n`, `+smush g`, `-smush g`, the group parentheses,
`-composite`, `-geometry +dx+dy`, a bare image-file operand, the leading
`convert "src"` element, and the trailing output-file element.  `resizeOp`,
`blurOp` and `grayscaleOp` stand for the backend resize/style passes
inherited from the base class. -/
inductive Cmd where
  | gravity (dir : String)
  | fill (color : String)
  | pointsize (n : ℚ)
  | kerning (n : ℚ)
  | stroke (color : String)
  | strokewidth (n : ℚ)
  | font (path : String)
  | label (text : String)
  | interlineSpacing (n : ℤ)
  | interwordSpacing (n : ℤ)
  | plusSmush (gap : ℤ)
  | smush (gap : ℤ)
  | groupBegin
  | groupEnd
  | composite
  | geometry (dx dy : ℤ)
  | image (path : String)
  | convert (path : String)
  | writeOut (path : String)
  | resizeOp
  | blurOp
  | grayscaleOp
  deriving DecidableEq

/-- Instance state of a `DamonsTitleCard`, one field per `__slots__` entry
(plus the `blur`/`grayscale` flags held by the base class).  The text
fields hold the already-escaped strings stored by `__init__`; escaping is
the backend adapter's concern. -/
structure State where
  source_file : String
  output_file : String
  title_text : String
  season_text : String
  episode_text : String
  hide_season_text : Bool
  hide_episode_text : Bool
  font_color : String
  font_file : String
  font_interline_spacing : ℤ
  font_interword_spacing : ℤ
  title_interline_spacing : ℤ
  font_kerning : ℚ
  font_size : ℚ
  font_stroke_width : ℚ
  font_vertical_shift : ℤ
  episode_text_color : String
  omit_gradient : Bool
  stroke_color : String
  episode_text_font_size : ℚ
  blur : Bool
  grayscale : Bool
  deriving DecidableEq

/-- ASCII model of Python `str.upper`: uppercase every character. -/
def pyUpper (s : String) : String := String.mk (s.toList.map Char.toUpper)

/-- Helper for `pySplit`: walks the character list, splitting at each single
space while the split budget lasts (Python `str.split(' ', maxsplit)`
semantics: empty chunks are kept, and once the budget is spent the rest of
the characters, spaces included, form the final chunk). -/
def pySplitSp : List Char → Nat → List Char → List (List Char)
  | [], _, acc => [acc.reverse]
  | ' ' :: rest, Nat.succ n, acc => acc.reverse :: pySplitSp rest n []
  | c :: rest, n, acc => pySplitSp rest n (c :: acc)

/-- Model of Python `s.split(' ', maxsplit)`. -/
def pySplit (s : String) (maxsplit : Nat) : List String :=
  (pySplitSp s.toList maxsplit []).map (fun cs => String.mk cs)

/-- Parsed episode label (spec §3).  `Standard` holds the five tokens
season-prefix, season-number, separator, episode-prefix, episode-number;
`Fallback` holds the whole uppercased input line. -/
inductive EpisodeLabel where
  | Standard (season_pfx season_num sep episode_pfx episode_num : String)
  | Fallback (line : String)
  deriving DecidableEq

/-- Episode-label tokenization from `format_text_commands` lines 244-248:
`self.episode_text.upper().split(' ', 4)` unpacked into five variables
inside a try block.  Unpacking succeeds exactly when the split yields five
chunks; on failure the except branch stores the whole uppercased string in
`top_line`. -/
def parseEpisodeLabel (episode_text : String) : EpisodeLabel :=
  match pySplit (pyUpper episode_text) 4 with
  | [a, b, c, d, e] => EpisodeLabel.Standard a b c d e
  | _ => EpisodeLabel.Fallback (pyUpper episode_text)

/-- Value of the `top_line` variable for a parse result: empty when the
five-way unpacking succeeded, otherwise the whole uppercased string. -/
def EpisodeLabel.topLine : EpisodeLabel → String
  | .Standard _ _ _ _ _ => ""
  | .Fallback l => l

/-- Body of the standard-case block of `format_text_commands` (lines
256-285), given the five tokens: computes `season_commands`,
`separator_commands`, `episode_commands` and the value of
`self.hide_episode_text` after the block (the ZERO branch assigns
`self.hide_episode_text = True` before the separator and episode checks
run). -/
def stdBody (st : State)
    (season_pfx season_num sep episode_pfx episode_num : String) :
    List Cmd × List Cmd × List Cmd × Bool :=
  let seasonAndHide :=
    if ¬ st.hide_season_text then
      if season_num = "ZERO" then
        ([Cmd.font EPISODE_NUMBER_FONT, Cmd.label "SPECIAL"], true)
      else
        ([Cmd.font EPISODE_PREFIX_FONT, Cmd.label season_pfx,
          Cmd.font EPISODE_NUMBER_FONT, Cmd.label season_num],
         st.hide_episode_text)
    else ([], st.hide_episode_text)
  let season_commands := seasonAndHide.1
  let hideEp := seasonAndHide.2
  let separator_commands :=
    if ¬ st.hide_season_text ∧ ¬ hideEp then [Cmd.label sep] else []
  let episode_commands :=
    if ¬ hideEp then
      [Cmd.font EPISODE_PREFIX_FONT, Cmd.label episode_pfx,
       Cmd.font EPISODE_NUMBER_FONT, Cmd.label episode_num]
    else []
  (season_commands, separator_commands, episode_commands, hideEp)

/-- Lines 250-285 of the source: the three command lists start empty and are
filled only when `top_line` is empty (`if top_line.__len__() <= 0`).  Note
that a `Fallback` with an empty line (empty episode text) passes that test
and runs the standard block with all five tokens empty. -/
def seasonEpisodeBody (st : State) : List Cmd × List Cmd × List Cmd × Bool :=
  match parseEpisodeLabel st.episode_text with
  | .Standard a b c d e => stdBody st a b c d e
  | .Fallback l =>
      if l.length ≤ 0 then stdBody st "" "" "" "" ""
      else ([], [], [], st.hide_episode_text)

/-- Season-and-episode group of the returned list (lines 295-306): the
shared settings, the three spliced command lists, and the `+smush 40`
merge, inside one parenthesised group. -/
def seasonEpisodeGroup (st : State) : List Cmd :=
  let body := seasonEpisodeBody st
  [Cmd.groupBegin,
   Cmd.gravity "west",
   Cmd.fill SERIES_COUNT_TEXT_COLOR,
   Cmd.pointsize (90 * st.episode_text_font_size),
   Cmd.kerning (10 * st.episode_text_font_size),
   Cmd.stroke st.stroke_color,
   Cmd.strokewidth 2]
  ++ body.1 ++ body.2.1 ++ body.2.2.1
  ++ [Cmd.plusSmush 40, Cmd.groupEnd]

/-- Title group of the returned list (lines 309-337): the stroke pass
followed by the fill pass over the same title text, combined with
`-composite`, inside one parenthesised group. -/
def titleGroup (st : State) : List Cmd :=
  [Cmd.groupBegin,
   Cmd.gravity "west",
   Cmd.fill st.stroke_color,
   Cmd.font st.font_file,
   Cmd.kerning (0.5 * st.font_kerning),
   Cmd.pointsize (200 * st.font_size),
   Cmd.interlineSpacing (st.title_interline_spacing + st.font_interline_spacing),
   Cmd.interwordSpacing (50 + st.font_interword_spacing),
   Cmd.stroke st.stroke_color,
   Cmd.strokewidth 12,
   Cmd.label st.title_text,
   Cmd.fill st.font_color,
   Cmd.font st.font_file,
   Cmd.kerning (0.5 * st.font_kerning),
   Cmd.pointsize (200 * st.font_size),
   Cmd.interlineSpacing (st.title_interline_spacing + st.font_interline_spacing),
   Cmd.interwordSpacing (50 + st.font_interword_spacing),
   Cmd.stroke st.font_color,
   Cmd.strokewidth 0,
   Cmd.label st.title_text,
   Cmd.composite,
   Cmd.groupEnd]

/-- Model of the `format_text_commands` property (lines 227-347).  Returns
the emitted command list together with the instance state after the call,
since the ZERO branch mutates `self.hide_episode_text`. -/
def format_text_commands (st : State) : List Cmd × State :=
  let hideEp := (seasonEpisodeBody st).2.2.2
  ([Cmd.gravity "west", Cmd.groupBegin]
   ++ seasonEpisodeGroup st
   ++ titleGroup st
   ++ [Cmd.gravity "west", Cmd.smush 50, Cmd.groupEnd,
       Cmd.gravity "southwest", Cmd.geometry 150 100, Cmd.composite],
   { st with hide_episode_text := hideEp })

/-- Model of the `gradient_command` property (lines 351-363). -/
def gradient_command (st : State) : List Cmd :=
  if ¬ st.omit_gradient then [Cmd.image GRADIENT_IMAGE, Cmd.composite] else []

/-- Modelled from the spec: `BaseCardType.resize_and_style` is inherited
code not present in this repository's source file.  Spec §4.4 step 2 says
it applies the background resize/style pass, including blur and grayscale
when requested. -/
def resize_and_style (blurFlag grayscaleFlag : Bool) : List Cmd :=
  [Cmd.resizeOp]
  ++ (if blurFlag then [Cmd.blurOp] else [])
  ++ (if grayscaleFlag then [Cmd.grayscaleOp] else [])

/-- Modelled from the spec: `BaseCardType.resize_output` is inherited code
not present in this repository's source file.  Spec §4.4 step 5 says it
applies the final output resize. -/
def resize_output : List Cmd := [Cmd.resizeOp]

/-- Model of `create` (lines 365-385): the full assembled command sequence,
in the order the source joins it. -/
def create (st : State) : List Cmd :=
  [Cmd.convert st.source_file]
  ++ resize_and_style st.blur st.grayscale
  ++ gradient_command st
  ++ (format_text_commands st).1
  ++ resize_output
  ++ [Cmd.writeOut st.output_file]

/-- Font characteristics consulted by `is_custom_font`. -/
structure Font where
  color : String
  file : String
  interline_spacing : ℤ
  interword_spacing : ℤ
  kerning : ℚ
  size : ℚ
  stroke_width : ℚ
  vertical_shift : ℤ
  deriving DecidableEq

/-- Extras dictionary as consulted by `is_custom_font`: only the three keys
it looks up are modelled; `none` means the key is absent. -/
structure Extras where
  episode_text_color : Option String
  episode_text_font_size : Option ℚ
  stroke_color : Option String
  deriving DecidableEq

/-- Model of the static method `is_custom_font` (lines 167-199). -/
def is_custom_font (font : Font) (extras : Extras) : Bool :=
  let custom_extras :=
    (match extras.episode_text_color with
     | some c => c != SERIES_COUNT_TEXT_COLOR
     | none => false)
    || (match extras.episode_text_font_size with
        | some s => s != 1.0
        | none => false)
    || (match extras.stroke_color with
        | some c => c != "black"
        | none => false)
  custom_extras
    || (font.color != TITLE_COLOR)
    || (font.file != TITLE_FONT)
    || (font.interline_spacing != 0)
    || (font.interword_spacing != 0)
    || (font.kerning != 1.0)
    || (font.size != 1.0)
    || (font.stroke_width != 1.0)
    || (font.vertical_shift != 0)

/-- Model of the static method `is_custom_season_titles` (lines 202-222).
The two print diagnostics are side-effect-only and not modelled; the
returned value compares the format string against the standard template
and never reads `custom_episode_map`. -/
def is_custom_season_titles (custom_episode_map : Bool)
    (episode_text_format : String) : Bool :=
  episode_text_format != EPISODE_TEXT_FORMAT

/-- Texts of the `label:` commands of a command list, in order. -/
def labelTexts (cmds : List Cmd) : List String :=
  cmds.filterMap (fun c => match c with | Cmd.label t => some t | _ => none)

/-- Whether a command is the gradient-overlay image operand. -/
def isGradientStep (c : Cmd) : Bool :=
  match c with | Cmd.image _ => true | _ => false

/-- Default-styled state used by concrete witnesses: every font field at
its constructor default, standard episode text, both hide flags false. -/
def baseState : State :=
  { source_file := "source.jpg"
    output_file := "card.jpg"
    title_text := "THE LONG NIGHT"
    season_text := "SEASON ONE"
    episode_text := "SEASON ONE • EPISODE TWO"
    hide_season_text := false
    hide_episode_text := false
    font_color := TITLE_COLOR
    font_file := TITLE_FONT
    font_interline_spacing := 0
    font_interword_spacing := 0
    title_interline_spacing := -50
    font_kerning := 1
    font_size := 1
    font_stroke_width := 1
    font_vertical_shift := 0
    episode_text_color := SERIES_COUNT_TEXT_COLOR
    omit_gradient := false
    stroke_color := "black"
    episode_text_font_size := 1
    blur := false
    grayscale := false }

/-- State whose episode text parses to a Standard label with season number
"ZERO". -/
def zeroState : State := { baseState with episode_text := "SEASON ZERO • EPISODE ONE" }

/-- Like `zeroState` but with the season text hidden. -/
def zeroHiddenSeasonState : State := { zeroState with hide_season_text := true }

/-- State whose episode text fails standard tokenization. -/
def fallbackState : State := { baseState with episode_text := "FLASHBACK" }

/-! ## Theorems -/

/-- Claim C1 is false as stated: the string "A  B C D" (two spaces after
the A) splits into five parts one of which is empty, so under the claim it
should yield the Fallback result, yet the code's five-way unpacking
succeeds and yields Standard with an empty season-number token.  The split
is never checked for non-empty parts. -/
theorem C1_counterexample :
    "" ∈ pySplit (pyUpper "A  B C D") 4 ∧
    parseEpisodeLabel "A  B C D" = EpisodeLabel.Standard "A" "" "B" "C" "D" ∧
    parseEpisodeLabel "A  B C D" ≠ EpisodeLabel.Fallback "A  B C D" := by
  refine ⟨by decide, by decide, by decide⟩

/-- Claim C1, amended: the parser yields Standard with the five split
tokens in order exactly when splitting the uppercased string on single
spaces with at most four split points yields exactly five parts (parts may
be empty); for every other string it yields Fallback holding the whole
uppercased input. -/
theorem C1_parse_characterization (s a b c d e : String) :
    (parseEpisodeLabel s = EpisodeLabel.Standard a b c d e ↔
      pySplit (pyUpper s) 4 = [a, b, c, d, e]) ∧
    ((pySplit (pyUpper s) 4).length ≠ 5 →
      parseEpisodeLabel s = EpisodeLabel.Fallback (pyUpper s)) := by
  unfold parseEpisodeLabel
  rcases h : pySplit (pyUpper s) 4 with _ | ⟨x1, _ | ⟨x2, _ | ⟨x3, _ | ⟨x4, _ | ⟨x5, _ | ⟨x6, t⟩⟩⟩⟩⟩⟩ <;>
    simp_all

/-- Witness for C1: both branches of the characterization hold at concrete
inputs. -/
theorem C1_parse_characterization_witness :
    parseEpisodeLabel "SEASON ONE • EPISODE TWO" =
      EpisodeLabel.Standard "SEASON" "ONE" "•" "EPISODE" "TWO" ∧
    parseEpisodeLabel "FLASHBACK" = EpisodeLabel.Fallback "FLASHBACK" := by
  constructor
  · exact (C1_parse_characterization "SEASON ONE • EPISODE TWO"
      "SEASON" "ONE" "•" "EPISODE" "TWO").1.mpr (by decide)
  · have h := (C1_parse_characterization "FLASHBACK" "" "" "" "" "").2 (by decide)
    have hup : pyUpper "FLASHBACK" = "FLASHBACK" := by decide
    rw [hup] at h
    exact h

/-- Claim C2 is false as stated: for a request whose label parses to
Standard with season number "ZERO" but whose season text is hidden, the
ZERO branch is skipped (it sits inside `if not self.hide_season_text`), so
the group holds the two episode labels instead of the single "SPECIAL"
label and `hide_episode_text` is not forced to true. -/
theorem C2_counterexample :
    parseEpisodeLabel zeroHiddenSeasonState.episode_text =
      EpisodeLabel.Standard "SEASON" "ZERO" "•" "EPISODE" "ONE" ∧
    labelTexts (seasonEpisodeGroup zeroHiddenSeasonState) = ["EPISODE", "ONE"] ∧
    (format_text_commands zeroHiddenSeasonState).2.hide_episode_text = false := by
  refine ⟨by decide, by decide, by decide⟩

/-- Claim C2, amended: for every request whose episode label parses to
Standard with season number "ZERO" and whose hide_season_text flag is
false, the season/episode group contains exactly one label, "SPECIAL", in
the number font, and the effective hide_episode_text flag is true for the
remainder of the render regardless of the caller-supplied flag. -/
theorem C2_zero_special (st : State) (a c d e : String)
    (hp : parseEpisodeLabel st.episode_text = EpisodeLabel.Standard a "ZERO" c d e)
    (hs : st.hide_season_text = false) :
    seasonEpisodeBody st =
      ([Cmd.font EPISODE_NUMBER_FONT, Cmd.label "SPECIAL"], [], [], true) ∧
    labelTexts (seasonEpisodeGroup st) = ["SPECIAL"] ∧
    (format_text_commands st).2.hide_episode_text = true := by
  have hb : seasonEpisodeBody st =
      ([Cmd.font EPISODE_NUMBER_FONT, Cmd.label "SPECIAL"], [], [], true) := by
    unfold seasonEpisodeBody
    rw [hp]
    unfold stdBody
    simp [hs]
  refine ⟨hb, ?_, ?_⟩
  · unfold seasonEpisodeGroup
    rw [hb]
    simp [labelTexts]
  · unfold format_text_commands
    rw [hb]

/-- Witness for C2: the amended claim holds at `zeroState`, whose caller
hide_episode_text flag is false. -/
theorem C2_zero_special_witness :
    zeroState.hide_season_text = false ∧
    zeroState.hide_episode_text = false ∧
    labelTexts (seasonEpisodeGroup zeroState) = ["SPECIAL"] ∧
    (format_text_commands zeroState).2.hide_episode_text = true := by
  refine ⟨by decide, by decide, ?_, ?_⟩
  · exact (C2_zero_special zeroState "SEASON" "•" "EPISODE" "ONE"
      (by decide) (by decide)).2.1
  · exact (C2_zero_special zeroState "SEASON" "•" "EPISODE" "ONE"
      (by decide) (by decide)).2.2

/-- Claim C3 names a code bug: at the failing input, episode text
"FLASHBACK", the parser yields the Fallback variant, but the built
operation sequence contains no label rendering the fallback line at all —
the season/episode group is left with zero labels (settings and an empty
smush only) and the only labels of the whole text-command sequence are the
two title passes.  The source computes `top_line` and prints it but never
emits it; the spec states the single-line rendering as the intent. -/
theorem C3_fallback_emits_no_label :
    parseEpisodeLabel "FLASHBACK" = EpisodeLabel.Fallback "FLASHBACK" ∧
    labelTexts (seasonEpisodeGroup fallbackState) = [] ∧
    labelTexts ((format_text_commands fallbackState).1) =
      ["THE LONG NIGHT", "THE LONG NIGHT"] := by
  refine ⟨by decide, by decide, by decide⟩

/-- Claim C4 is false as stated: building the command sequence for
`zeroState` mutates the instance, flipping `hide_episode_text` from false
to true, so the request state is not left unchanged. -/
theorem C4_counterexample :
    zeroState.hide_episode_text = false ∧
    (format_text_commands zeroState).2.hide_episode_text = true ∧
    (format_text_commands zeroState).2 ≠ zeroState := by
  refine ⟨by decide, by decide, by decide⟩

/-- Helper: rebuilding the season/episode body from the post-call state
(the state with `hide_episode_text` replaced by the value the call left
behind) yields the same body. -/
theorem seasonEpisodeBody_update (st : State) :
    seasonEpisodeBody { st with hide_episode_text := (seasonEpisodeBody st).2.2.2 } =
      seasonEpisodeBody st := by
  unfold seasonEpisodeBody stdBody
  cases hp : parseEpisodeLabel st.episode_text with
  | Standard a b c d e =>
      by_cases hs : st.hide_season_text <;> by_cases hz : b = "ZERO" <;> simp [hs, hz]
  | Fallback l =>
      by_cases hl : l.length ≤ 0 <;> by_cases hs : st.hide_season_text <;> simp [hs, hl]

/-- Helper: the `hide_episode_text` value left behind by the body is either
the caller's value or true (the ZERO branch). -/
theorem body_he_cases (st : State) :
    (seasonEpisodeBody st).2.2.2 = st.hide_episode_text ∨
    (seasonEpisodeBody st).2.2.2 = true := by
  unfold seasonEpisodeBody stdBody
  cases hp : parseEpisodeLabel st.episode_text with
  | Standard a b c d e =>
      by_cases hs : st.hide_season_text <;> by_cases hz : b = "ZERO" <;> simp [hs, hz]
  | Fallback l =>
      by_cases hl : l.length ≤ 0 <;> by_cases hs : st.hide_season_text <;> simp [hs, hl]

/-- Helper: the season/episode group is unchanged by replacing
`hide_episode_text` with the value the call leaves behind. -/
theorem seasonEpisodeGroup_update (st : State) :
    seasonEpisodeGroup { st with hide_episode_text := (seasonEpisodeBody st).2.2.2 } =
      seasonEpisodeGroup st := by
  simp only [seasonEpisodeGroup, seasonEpisodeBody_update]

/-- Claim C4, amended: building the command sequence is deterministic and
idempotent — rebuilding from the post-call state returns the same command
list and the same state — but it is not stateless: the post-call state is
either the input state or the input state with `hide_episode_text` set to
true; every other field is left unchanged. -/
theorem C4_frame_idempotent (st : State) :
    ((format_text_commands st).2 = st ∨
      (format_text_commands st).2 = { st with hide_episode_text := true }) ∧
    format_text_commands ((format_text_commands st).2) = format_text_commands st := by
  constructor
  · rcases body_he_cases st with h | h
    · left
      show ({ st with hide_episode_text := (seasonEpisodeBody st).2.2.2 }) = st
      rw [h]
    · right
      show ({ st with hide_episode_text := (seasonEpisodeBody st).2.2.2 }) =
        { st with hide_episode_text := true }
      rw [h]
  · show format_text_commands
        { st with hide_episode_text := (seasonEpisodeBody st).2.2.2 } = _
    simp only [format_text_commands, seasonEpisodeBody_update, seasonEpisodeGroup_update]
    rfl

/-- Claim C5: `is_custom_font` returns true exactly when one of the three
listed extras is present and differs from its standard value, or one of
the eight font fields differs from the class defaults (color "#EBEBEB",
default font file, interline spacing 0, interword spacing 0, kerning 1.0,
size 1.0, stroke width 1.0, vertical shift 0); comparisons are exact.  In
particular it returns false when every field equals the defaults and no
listed extra is present-and-different. -/
theorem C5_is_custom_font_iff (f : Font) (e : Extras) :
    is_custom_font f e = true ↔
      ((∃ c, e.episode_text_color = some c ∧ c ≠ SERIES_COUNT_TEXT_COLOR) ∨
       (∃ s, e.episode_text_font_size = some s ∧ s ≠ 1.0) ∨
       (∃ c, e.stroke_color = some c ∧ c ≠ "black") ∨
       f.color ≠ "#EBEBEB" ∨
       f.file ≠ TITLE_FONT ∨
       f.interline_spacing ≠ 0 ∨
       f.interword_spacing ≠ 0 ∨
       f.kerning ≠ 1.0 ∨
       f.size ≠ 1.0 ∨
       f.stroke_width ≠ 1.0 ∨
       f.vertical_shift ≠ 0) := by
  unfold is_custom_font
  rcases e with ⟨ec, es, sc⟩
  cases ec <;> cases es <;> cases sc <;>
    simp [TITLE_COLOR] <;> tauto

/-- Claim C6: `is_custom_season_titles` returns true exactly when the
episode text format differs character-for-character from the standard
template, and its `custom_episode_map` argument has no influence on the
result. -/
theorem C6_is_custom_season_titles (m m' : Bool) (f : String) :
    (is_custom_season_titles m f = true ↔ f ≠ EPISODE_TEXT_FORMAT) ∧
    is_custom_season_titles m f = is_custom_season_titles m' f := by
  unfold is_custom_season_titles
  simp

/-- Helper: the text-layout command sequence never contains an image-file
operand, so the gradient step can only come from `gradient_command`. -/
theorem countP_grad_format (st : State) :
    List.countP isGradientStep (format_text_commands st).1 = 0 := by
  unfold format_text_commands seasonEpisodeGroup titleGroup seasonEpisodeBody stdBody
  cases hp : parseEpisodeLabel st.episode_text with
  | Standard a b c d e =>
      by_cases hs : st.hide_season_text <;> by_cases hz : b = "ZERO" <;>
        simp [hs, hz, isGradientStep, List.countP_append, List.countP_cons] <;>
        (intro a h1 h2; rcases h2 with rfl | rfl | rfl | rfl <;> rfl)
  | Fallback l =>
      by_cases hl : l.length ≤ 0 <;> by_cases hs : st.hide_season_text <;>
        simp [hs, hl, isGradientStep, List.countP_append, List.countP_cons] <;>
        (intro a h1 h2; rcases h2 with rfl | rfl | rfl | rfl <;> rfl)

/-- Claim C7: the assembled sequence places `gradient_command` between the
background resize/style pass and the text-layout commands; with
omit_gradient true the gradient step is entirely absent (and the sequence
is two commands shorter, not a no-op), and with omit_gradient false the
gradient overlay composite appears exactly once. -/
theorem C7_gradient (st : State) :
    create st =
      ([Cmd.convert st.source_file] ++ resize_and_style st.blur st.grayscale)
        ++ gradient_command st
        ++ ((format_text_commands st).1 ++ resize_output ++ [Cmd.writeOut st.output_file]) ∧
    (st.omit_gradient = true →
      gradient_command st = [] ∧ List.countP isGradientStep (create st) = 0) ∧
    (st.omit_gradient = false →
      gradient_command st = [Cmd.image GRADIENT_IMAGE, Cmd.composite] ∧
      List.countP isGradientStep (create st) = 1) ∧
    (st.omit_gradient = true →
      (create st).length + 2 = (create { st with omit_gradient := false }).length) := by
  have hgrad0 : ∀ b g, List.countP isGradientStep (resize_and_style b g) = 0 := by
    intro b g
    cases b <;> cases g <;>
      simp [resize_and_style, isGradientStep, List.countP_append, List.countP_cons]
  refine ⟨by simp [create], ?_, ?_, ?_⟩
  · intro h
    have hg : gradient_command st = [] := by simp [gradient_command, h]
    refine ⟨hg, ?_⟩
    simp [create, hg, List.countP_append, List.countP_cons, hgrad0, countP_grad_format,
      isGradientStep, resize_output]
  · intro h
    have hg : gradient_command st = [Cmd.image GRADIENT_IMAGE, Cmd.composite] := by
      simp [gradient_command, h]
    refine ⟨hg, ?_⟩
    simp [create, hg, List.countP_append, List.countP_cons, hgrad0, countP_grad_format,
      isGradientStep, resize_output]
  · intro h
    have hg : gradient_command st = [] := by simp [gradient_command, h]
    have hg2 : gradient_command { st with omit_gradient := false } =
        [Cmd.image GRADIENT_IMAGE, Cmd.composite] := by simp [gradient_command]
    have hfmt : (format_text_commands { st with omit_gradient := false }).1 =
        (format_text_commands st).1 := rfl
    simp [create, hg, hg2, hfmt]
    omega

/-- Witness for C7: at `baseState` the gradient step appears exactly once,
and with the omission flag set it is absent and the sequence shorter. -/
theorem C7_gradient_witness :
    baseState.omit_gradient = false ∧
    ({ baseState with omit_gradient := true } : State).omit_gradient = true ∧
    List.countP isGradientStep (create baseState) = 1 ∧
    List.countP isGradientStep (create { baseState with omit_gradient := true }) = 0 ∧
    (create { baseState with omit_gradient := true }).length + 2 =
      (create baseState).length := by
  refine ⟨rfl, rfl, ((C7_gradient baseState).2.2.1 rfl).2,
    ((C7_gradient { baseState with omit_gradient := true }).2.1 rfl).2, ?_⟩
  have h := (C7_gradient { baseState with omit_gradient := true }).2.2.2 rfl
  simpa using h

/-- Claim C8: with the title interline base at its default -50, the title
group is exactly two label passes over the same title text at gravity
west, kerning 0.5 × font_kerning, point-size 200 × font_size,
interline-spacing -50 + font interline offset, interword-spacing 50 +
font interword offset; the stroke pass uses fill and stroke equal to the
stroke color with stroke width 12, the fill pass uses fill and stroke
equal to the font color with stroke width 0, and the fill pass is
composited over the stroke pass. -/
theorem C8_title_group (st : State) (h : st.title_interline_spacing = -50) :
    labelTexts (titleGroup st) = [st.title_text, st.title_text] ∧
    titleGroup st =
      [Cmd.groupBegin,
       Cmd.gravity "west",
       Cmd.fill st.stroke_color,
       Cmd.font st.font_file,
       Cmd.kerning (0.5 * st.font_kerning),
       Cmd.pointsize (200 * st.font_size),
       Cmd.interlineSpacing (-50 + st.font_interline_spacing),
       Cmd.interwordSpacing (50 + st.font_interword_spacing),
       Cmd.stroke st.stroke_color,
       Cmd.strokewidth 12,
       Cmd.label st.title_text,
       Cmd.fill st.font_color,
       Cmd.font st.font_file,
       Cmd.kerning (0.5 * st.font_kerning),
       Cmd.pointsize (200 * st.font_size),
       Cmd.interlineSpacing (-50 + st.font_interline_spacing),
       Cmd.interwordSpacing (50 + st.font_interword_spacing),
       Cmd.stroke st.font_color,
       Cmd.strokewidth 0,
       Cmd.label st.title_text,
       Cmd.composite,
       Cmd.groupEnd] := by
  constructor
  · simp [labelTexts, titleGroup]
  · simp [titleGroup, h]

/-- Witness for C8: the title group of `baseState` renders its title twice. -/
theorem C8_title_group_witness :
    baseState.title_interline_spacing = -50 ∧
    labelTexts (titleGroup baseState) = ["THE LONG NIGHT", "THE LONG NIGHT"] := by
  refine ⟨by decide, ?_⟩
  rw [(C8_title_group baseState (by decide)).1]
  rfl

/-- Claim C9: in standard mode the season/episode group opens with the
shared settings — west gravity, series-count fill color, point-size 90 ×
episode_text_font_size, kerning 10 × episode_text_font_size, the caller's
stroke color, stroke width 2 — followed by the season, separator and
episode command lists in emission order and a horizontal smush with gap
40; and the separator label is emitted exactly when the season text is
shown and the effective episode-hide flag is off. -/
theorem C9_season_episode_group (st : State) (a b c d e : String)
    (hp : parseEpisodeLabel st.episode_text = EpisodeLabel.Standard a b c d e) :
    seasonEpisodeGroup st =
      [Cmd.groupBegin,
       Cmd.gravity "west",
       Cmd.fill SERIES_COUNT_TEXT_COLOR,
       Cmd.pointsize (90 * st.episode_text_font_size),
       Cmd.kerning (10 * st.episode_text_font_size),
       Cmd.stroke st.stroke_color,
       Cmd.strokewidth 2]
      ++ (seasonEpisodeBody st).1 ++ (seasonEpisodeBody st).2.1
      ++ (seasonEpisodeBody st).2.2.1
      ++ [Cmd.plusSmush 40, Cmd.groupEnd] ∧
    ((seasonEpisodeBody st).2.1 =
      if st.hide_season_text = false ∧ (seasonEpisodeBody st).2.2.2 = false
      then [Cmd.label c] else []) := by
  refine ⟨rfl, ?_⟩
  unfold seasonEpisodeBody stdBody
  rw [hp]
  by_cases hs : st.hide_season_text <;> by_cases hz : b = "ZERO" <;>
    by_cases he : st.hide_episode_text <;> simp [hs, hz, he]

/-- Witness for C9: at `baseState` both season and episode are shown, so
the separator label is emitted between them. -/
theorem C9_season_episode_group_witness :
    parseEpisodeLabel baseState.episode_text =
      EpisodeLabel.Standard "SEASON" "ONE" "•" "EPISODE" "TWO" ∧
    (seasonEpisodeBody baseState).2.1 = [Cmd.label "•"] := by
  refine ⟨by decide, ?_⟩
  rw [(C9_season_episode_group baseState "SEASON" "ONE" "•" "EPISODE" "TWO" (by decide)).2]
  decide

/-- Claim C10: two requests identical except for episode_text_color
produce identical text-layout commands and identical fully assembled
sequences; the supplied color is stored on the instance (before and after
the build) but never read, the episode-group fill always being the class
series-count color. -/
theorem C10_episode_text_color_unused (st : State) (c : String) :
    (format_text_commands { st with episode_text_color := c }).1 =
      (format_text_commands st).1 ∧
    create { st with episode_text_color := c } = create st ∧
    ({ st with episode_text_color := c } : State).episode_text_color = c ∧
    (format_text_commands { st with episode_text_color := c }).2.episode_text_color = c ∧
    Cmd.fill SERIES_COUNT_TEXT_COLOR ∈ seasonEpisodeGroup st := by
  refine ⟨rfl, rfl, rfl, rfl, ?_⟩
  simp [seasonEpisodeGroup]

end DamonsTitleCard
